import Mathlib

/-!
Verification of the measurement core of `yaspeedtest`
(`src/yaspeedtest/client.py`), shallowly embedded in Lean 4.

Conventions of the embedding:
* Wall-clock instants (`time.perf_counter()`) are rationals supplied as
  oracle inputs `t0`, `t1`; physically `t0 ≤ t1` (the counter is monotonic),
  which appears as a hypothesis where it matters.
* Python's `float('inf')` sentinel is the constructor `Elapsed.inf`;
  a finite float duration is `Elapsed.fin q` with `q : ℚ`.
* Network I/O is an oracle: each HTTP interaction's outcome (exception,
  or a response with a status code and a body) is an explicit input, and
  the embedded function is the total map from outcomes to return values.
  `except Exception` blocks in the source correspond to the failure
  constructors of the outcome types.
* Byte strings are modelled as lists of byte values (`List ℕ`); only
  their lengths and contents matter to the claims.
-/

/-- Durations as produced by the source: a finite number of seconds
(or milliseconds), or Python's `float('inf')` failure sentinel. -/
inductive Elapsed where
  | fin (q : ℚ)
  | inf
deriving DecidableEq, Repr

/-- `max` on durations, with `inf` absorbing (as for IEEE infinities). -/
def Elapsed.maxE : Elapsed → Elapsed → Elapsed
  | .inf, _ => .inf
  | .fin _, .inf => .inf
  | .fin a, .fin b => .fin (max a b)

/-- Division of a finite quantity by a duration, as float division behaves
on the values the aggregator can produce: anything divided by `inf` is `0`;
division by a finite duration is rational division. -/
def Elapsed.divBy (x : ℚ) : Elapsed → ℚ
  | .inf => 0
  | .fin q => x / q

/-! ## Upload payload generator (client.py lines 160-168)

```python
chunk = b"\0" * (64 * 1024)
chunks = size // len(chunk)
tail = size % len(chunk)

async def gen():
    for _ in range(chunks):
        yield chunk
    if tail:
        yield b"\0" * tail
```
-/

/-- `chunk = b"\0" * (64 * 1024)`: a 64 KiB zero-filled byte string. -/
def uploadChunk : List ℕ := List.replicate (64 * 1024) 0

/-- The sequence of byte strings yielded by `measure_upload`'s nested
generator `gen` for a payload of `size` bytes: `size // 65536` copies of
the full 64 KiB chunk, then (`if tail:`) one chunk of `size % 65536`
zero bytes when that remainder is nonzero. -/
def uploadGen (size : ℕ) : List (List ℕ) :=
  List.replicate (size / uploadChunk.length) uploadChunk ++
    (if size % uploadChunk.length ≠ 0 then
      [List.replicate (size % uploadChunk.length) 0]
    else [])

lemma uploadChunk_length : uploadChunk.length = 65536 := by
  rw [uploadChunk, List.length_replicate]

lemma uploadGen_lengths (size : ℕ) :
    (uploadGen size).map List.length =
      List.replicate (size / 65536) 65536 ++
        (if size % 65536 = 0 then [] else [size % 65536]) := by
  by_cases h : size % 65536 = 0 <;>
    simp [uploadGen, uploadChunk_length, h, List.map_replicate]

/-- **C1.** For every non-negative integer `size`, the payload generator
used by `measure_upload` yields exactly `size` bytes in total: the chunk
lengths are `size / 65536` full 64 KiB chunks followed by one tail chunk
of `size % 65536` bytes, the tail being omitted exactly when
`size % 65536 = 0`; every byte yielded is a zero byte; and the lengths
sum to `size`. -/
theorem upload_gen_exact (size : ℕ) :
    ((uploadGen size).map List.length =
      List.replicate (size / 65536) 65536 ++
        (if size % 65536 = 0 then [] else [size % 65536])) ∧
    (((uploadGen size).map List.length).sum = size) ∧
    (∀ c ∈ uploadGen size, ∀ b ∈ c, b = 0) := by
  refine ⟨uploadGen_lengths size, ?_, ?_⟩
  · rw [uploadGen_lengths size]
    by_cases h : size % 65536 = 0
    · simp [h, List.sum_replicate, smul_eq_mul]
      omega
    · simp [h, List.sum_replicate, smul_eq_mul]
      omega
  · intro c hc b hb
    simp only [uploadGen, List.mem_append, List.mem_replicate] at hc
    rcases hc with ⟨_, rfl⟩ | hc
    · simp only [uploadChunk] at hb
      exact (List.eq_of_mem_replicate hb)
    · rcases Decidable.em (size % uploadChunk.length ≠ 0) with h | h
      · rw [if_pos h] at hc
        simp only [List.mem_singleton] at hc
        subst hc
        exact (List.eq_of_mem_replicate hb)
      · rw [if_neg h] at hc
        simp at hc

/-! ## Timeout normalization and `aiohttp.ClientTimeout` configurations

Each measurement method starts with `if not timeout: timeout = 10`
(Python truthiness: `None` and `0` are falsy) and then builds an
`aiohttp.ClientTimeout`. -/

/-- An `aiohttp.ClientTimeout(total=…, connect=…, sock_read=…)` value;
`none` stands for Python `None` (no limit). -/
structure ClientTimeout where
  total : Option ℚ
  connect : Option ℚ
  sockRead : Option ℚ
deriving DecidableEq, Repr

/-- `if not timeout: timeout = 10`: an absent (`None`) or zero timeout
becomes 10 seconds. -/
def normalizeTimeout (timeout : Option ℚ) : ℚ :=
  match timeout with
  | none => 10
  | some t => if t = 0 then 10 else t

/-- client.py line 79:
`aiohttp.ClientTimeout(total=None, connect=timeout, sock_read=60)`. -/
def download_timeout_config (timeout : Option ℚ) : ClientTimeout :=
  ⟨none, some (normalizeTimeout timeout), some 60⟩

/-- client.py line 114:
`aiohttp.ClientTimeout(total=10, connect=timeout, sock_read=10)`. -/
def latency_timeout_config (timeout : Option ℚ) : ClientTimeout :=
  ⟨some 10, some (normalizeTimeout timeout), some 10⟩

/-- client.py line 170:
`aiohttp.ClientTimeout(total=None, connect=timeout, sock_read=120)`. -/
def upload_timeout_config (timeout : Option ℚ) : ClientTimeout :=
  ⟨none, some (normalizeTimeout timeout), some 120⟩

/-! ## Latency prober (client.py lines 95-129)

Each of the `attempts` loop iterations performs one `session.get(url)`;
its network outcome is an oracle value: either the request completed
(with some HTTP status, the body was read, and `t1 - t0` seconds
elapsed), or an exception (timeout / connection error) was raised and
caught by the `except Exception` handler. -/

/-- Outcome of one latency attempt. `response status secs` means the GET
and `r.read()` completed with the given status after `secs` seconds;
`failure` means the attempt raised (timeout or connection error). -/
inductive LatencyAttempt where
  | response (status : ℕ) (secs : ℚ)
  | failure
deriving DecidableEq, Repr

/-- The value the loop body appends to `times` for one attempt:
`(t1 - t0) * 1000` for a completed request (no status check is made),
and the fixed `10000` ms penalty for a raised exception. -/
def recordedValue : LatencyAttempt → ℚ
  | .response _ secs => secs * 1000
  | .failure => 10000

/-- The `times` list built by `measure_latency`'s loop: one appended
entry per attempt, in order. -/
def latencyTimes : List LatencyAttempt → List ℚ
  | [] => []
  | a :: rest => recordedValue a :: latencyTimes rest

/-- CPython's `statistics.median`: sort the data, take the middle element
when the length is odd, the mean of the two middle elements when even.
(The empty case, which raises `StatisticsError` in Python, is unreachable
in `measure_latency` because of the `if not times` guard; `getD`'s
default is junk there.) -/
def statistics_median (data : List ℚ) : ℚ :=
  let s := data.mergeSort (fun a b => decide (a ≤ b))
  let n := data.length
  if n % 2 = 1 then s.getD (n / 2) 0
  else (s.getD (n / 2 - 1) 0 + s.getD (n / 2) 0) / 2

/-- The standard median, written against the specification's words
("for attempt lists of odd length the middle element, for even length
the mean of the two middle elements") over an insertion-sorted copy —
a second route to the sorted list, to be compared with the source's
`statistics.median` embedding. -/
def medianSpec (l : List ℚ) : ℚ :=
  let s := l.insertionSort (· ≤ ·)
  if l.length % 2 = 1 then s.getD (l.length / 2) 0
  else (s.getD (l.length / 2 - 1) 0 + s.getD (l.length / 2) 0) / 2

/-- `measure_latency` (client.py lines 95-129): builds `times` from the
per-attempt outcomes, returns `float('inf')` when `times` is empty and
`statistics.median(times)` otherwise. The `timeout` argument only shapes
the `ClientTimeout` handed to the network layer
(`latency_timeout_config`). -/
def measure_latency (timeout : Option ℚ) (outs : List LatencyAttempt) : Elapsed :=
  let _cfg := latency_timeout_config timeout
  let times := latencyTimes outs
  if times = [] then .inf else .fin (statistics_median times)

lemma statistics_median_eq_medianSpec (l : List ℚ) :
    statistics_median l = medianSpec l := by
  have h : l.mergeSort (fun a b => decide (a ≤ b)) = l.insertionSort (· ≤ ·) :=
    List.mergeSort_eq_insertionSort (r := (· ≤ ·)) l
  simp only [statistics_median, medianSpec, h]

lemma latencyTimes_eq_nil_iff (outs : List LatencyAttempt) :
    latencyTimes outs = [] ↔ outs = [] := by
  cases outs <;> simp [latencyTimes]

/-- **C2.** `measure_latency` returns the standard median of the recorded
per-attempt values (middle element for odd length, mean of the two middle
elements for even length, penalty entries included), and returns the
`+infinity` sentinel exactly when no value was recorded, i.e. when zero
attempts were configured. -/
theorem latency_returns_median (timeout : Option ℚ) (outs : List LatencyAttempt) :
    measure_latency timeout outs =
      (if outs = [] then Elapsed.inf
       else Elapsed.fin (medianSpec (latencyTimes outs))) := by
  rw [measure_latency]
  by_cases h : outs = []
  · simp [h, latencyTimes]
  · rw [if_neg ((not_iff_not.mpr (latencyTimes_eq_nil_iff outs)).mpr h), if_neg h,
      statistics_median_eq_medianSpec]

lemma latencyTimes_length (outs : List LatencyAttempt) :
    (latencyTimes outs).length = outs.length := by
  induction outs with
  | nil => rfl
  | cons a rest ih => simp [latencyTimes, ih]

lemma latencyTimes_getD (outs : List LatencyAttempt) (i : ℕ) :
    (latencyTimes outs).getD i 10000 = recordedValue (outs.getD i .failure) := by
  induction outs generalizing i with
  | nil => simp [latencyTimes, recordedValue]
  | cons a rest ih =>
    cases i with
    | zero => simp [latencyTimes]
    | succ j => simp only [latencyTimes, List.getD_cons_succ, ih j]

/-- **C5.** The recorded list has exactly one entry per attempt, in
order: a transport-level failure records the fixed 10000 ms penalty,
while a completed request records its measured round-trip time
`secs * 1000` regardless of HTTP status — a non-2xx response is recorded
like a success, not as a failure. -/
theorem latency_one_entry_per_attempt (outs : List LatencyAttempt) :
    ((latencyTimes outs).length = outs.length) ∧
    (∀ i : ℕ, (latencyTimes outs).getD i 10000 =
      recordedValue (outs.getD i .failure)) ∧
    (∀ status secs, recordedValue (.response status secs) = secs * 1000) ∧
    (recordedValue .failure = 10000) :=
  ⟨latencyTimes_length outs, latencyTimes_getD outs,
    fun _ _ => rfl, rfl⟩

/-- **C10.** With at least one attempt the recorded list is non-empty,
so the empty-list branch returning `+infinity` is unreachable: the
sentinel is returned exactly when zero attempts were made. -/
theorem latency_sentinel_iff_zero_attempts (timeout : Option ℚ)
    (attempts : ℕ) (outs : List LatencyAttempt)
    (h : outs.length = attempts) :
    measure_latency timeout outs = Elapsed.inf ↔ attempts = 0 := by
  rw [measure_latency]
  by_cases he : latencyTimes outs = []
  · rw [if_pos he]
    have : outs = [] := (latencyTimes_eq_nil_iff outs).mp he
    subst this
    simp at h
    simp [← h]
  · rw [if_neg he]
    constructor
    · intro hc
      exact absurd hc (by simp)
    · intro ha
      have : outs = [] := List.length_eq_zero.mp (h.trans ha)
      exact absurd ((latencyTimes_eq_nil_iff outs).mpr this) he

/-- Witness for `latency_sentinel_iff_zero_attempts` at one failing
attempt: the result is the 10000 ms penalty median, not the sentinel. -/
theorem latency_sentinel_iff_zero_attempts_witness :
    measure_latency none [LatencyAttempt.failure] ≠ Elapsed.inf :=
  fun hc =>
    Nat.one_ne_zero
      ((latency_sentinel_iff_zero_attempts none 1 [LatencyAttempt.failure] rfl).mp hc)

/-! ## Transfer timer: download (client.py lines 59-93)

The oracle outcome of the single streaming GET. The body is represented
by the list of chunk byte-lengths yielded by
`resp.content.iter_chunked(64 * 1024)`; `total_bytes` is their sum.
The `except Exception` handler wraps the whole session/request/body
block, so any exception — connection error or timeout, before or during
body consumption — maps to a failure constructor. -/

/-- Outcome of `measure_download`'s network interaction. -/
inductive DownloadOutcome where
  /-- An exception was raised before the body loop (connect failure,
  timeout, …). -/
  | connFailure
  /-- The response arrived with `status`, but an exception interrupted
  the chunk loop after the given chunk lengths were read. -/
  | bodyFailure (status : ℕ) (readSoFar : List ℕ)
  /-- The response arrived with `status` and (when `status = 200`) the
  body was fully consumed as the given chunk lengths. -/
  | success (status : ℕ) (chunks : List ℕ)
deriving DecidableEq, Repr

/-- `measure_download` (client.py lines 59-93): `t0`/`t1` are the two
`perf_counter()` readings; a non-200 status or any exception returns
`(float('inf'), 0)`, otherwise `(t1 - t0, total_bytes)`. The function is
total — no outcome escapes as an exception. -/
def measure_download (timeout : Option ℚ) (out : DownloadOutcome)
    (t0 t1 : ℚ) : Elapsed × ℕ :=
  let _cfg := download_timeout_config timeout
  match out with
  | .connFailure => (.inf, 0)
  | .bodyFailure _ _ => (.inf, 0)
  | .success status chunks =>
      if status ≠ 200 then (.inf, 0)
      else (.fin (t1 - t0), chunks.sum)

/-! ## Transfer timer: upload (client.py lines 131-181)

The `try` block wraps `session.post(url, data=gen())` and `r.read()`,
so an exception anywhere in the transfer maps to `failure`. On success
the source returns `(t1 - t0, size)` — the declared `size` argument,
never a recount of the bytes the generator produced. -/

/-- Outcome of `measure_upload`'s network interaction. -/
inductive UploadOutcome where
  /-- An exception in the POST or in reading the response. -/
  | failure
  /-- The POST completed with `status` and the response body was read. -/
  | response (status : ℕ)
deriving DecidableEq, Repr

/-- `measure_upload` (client.py lines 131-181). -/
def measure_upload (timeout : Option ℚ) (size : ℕ) (out : UploadOutcome)
    (t0 t1 : ℚ) : Elapsed × ℕ :=
  let _cfg := upload_timeout_config timeout
  match out with
  | .failure => (.inf, 0)
  | .response status =>
      if status ≠ 200 then (.inf, 0)
      else (.fin (t1 - t0), size)

/-- **C4.** `measure_download` returns the failure sentinel
`(+infinity, 0)` on a connection error or timeout at any point (before
or during body consumption) and on every non-2xx status; being a total
function of the oracle outcome, it never raises past its boundary. -/
theorem download_failure_sentinel (timeout : Option ℚ) (t0 t1 : ℚ) :
    (measure_download timeout .connFailure t0 t1 = (Elapsed.inf, 0)) ∧
    (∀ status readSoFar,
      measure_download timeout (.bodyFailure status readSoFar) t0 t1 =
        (Elapsed.inf, 0)) ∧
    (∀ status chunks, status < 200 ∨ 300 ≤ status →
      measure_download timeout (.success status chunks) t0 t1 =
        (Elapsed.inf, 0)) := by
  refine ⟨rfl, fun _ _ => rfl, fun status chunks h => ?_⟩
  have hne : status ≠ 200 := by omega
  simp [measure_download, hne]

/-- Witness for `download_failure_sentinel` at a concrete non-2xx
status. -/
theorem download_failure_sentinel_witness :
    measure_download none (.success 500 [1000]) 0 1 = (Elapsed.inf, 0) :=
  (download_failure_sentinel none 0 1).2.2 500 [1000] (Or.inr (by norm_num))

/-- **C6.** `measure_upload` returns the failure sentinel
`(+infinity, 0)` on any error (exception or non-200 status), and on
success returns the measured elapsed time paired with the declared
`size` argument. -/
theorem upload_sentinel_or_declared_size (timeout : Option ℚ) (size : ℕ)
    (t0 t1 : ℚ) :
    (measure_upload timeout size .failure t0 t1 = (Elapsed.inf, 0)) ∧
    (∀ status, status ≠ 200 →
      measure_upload timeout size (.response status) t0 t1 =
        (Elapsed.inf, 0)) ∧
    (measure_upload timeout size (.response 200) t0 t1 =
      (Elapsed.fin (t1 - t0), size)) := by
  refine ⟨rfl, fun status h => ?_, by simp [measure_upload]⟩
  simp [measure_upload, h]

/-- Witness for `upload_sentinel_or_declared_size` at a concrete non-200
status. -/
theorem upload_sentinel_or_declared_size_witness :
    measure_upload none 7 (.response 503) 0 2 = (Elapsed.inf, 0) :=
  (upload_sentinel_or_declared_size none 7 0 2).2.1 503 (by norm_num)

/-- **C3, counterexample.** The claimed invariant
"`bytes = 0` iff `elapsed` is the failure sentinel" fails on the code:
a successful upload of declared size `0` (the POST returns 200) yields
`bytes = 0` with a finite elapsed time. -/
theorem transfer_sample_iff_counterexample :
    (measure_upload none 0 (.response 200) 0 1).2 = 0 ∧
    (measure_upload none 0 (.response 200) 0 1).1 ≠ Elapsed.inf := by
  constructor
  · rfl
  · intro h
    simp [measure_upload] at h

/-- **C3, amended.** Samples from `measure_download` and
`measure_upload` satisfy: the sentinel direction of the invariant holds
(`elapsed = +infinity` implies `bytes = 0`); a successful download whose
body is non-empty (its chunks are non-empty with positive lengths, as
`iter_chunked` yields) has `bytes > 0` and finite elapsed `t1 - t0 ≥ 0`;
and a successful upload has finite elapsed `t1 - t0 ≥ 0` with `bytes`
equal to the declared size — positive exactly when `size > 0`. The
unqualified iff fails only for zero-payload successes. -/
theorem transfer_sample_invariant (timeout : Option ℚ) (size : ℕ)
    (dout : DownloadOutcome) (uout : UploadOutcome) (t0 t1 : ℚ)
    (ht : t0 ≤ t1) :
    ((measure_download timeout dout t0 t1).1 = Elapsed.inf →
      (measure_download timeout dout t0 t1).2 = 0) ∧
    ((measure_upload timeout size uout t0 t1).1 = Elapsed.inf →
      (measure_upload timeout size uout t0 t1).2 = 0) ∧
    (∀ chunks, chunks ≠ [] → (∀ c ∈ chunks, 0 < c) →
      measure_download timeout (.success 200 chunks) t0 t1 =
        (Elapsed.fin (t1 - t0), chunks.sum) ∧
      0 < chunks.sum ∧ 0 ≤ t1 - t0) ∧
    (measure_upload timeout size (.response 200) t0 t1 =
      (Elapsed.fin (t1 - t0), size) ∧ 0 ≤ t1 - t0) := by
  refine ⟨?_, ?_, ?_, by simp [measure_upload], by linarith⟩
  · intro h
    match dout with
    | .connFailure => rfl
    | .bodyFailure _ _ => rfl
    | .success status chunks =>
      by_cases hs : status = 200
      · simp [measure_download, hs] at h
      · simp [measure_download, hs]
  · intro h
    match uout with
    | .failure => rfl
    | .response status =>
      by_cases hs : status = 200
      · simp [measure_upload, hs] at h
      · simp [measure_upload, hs]
  · intro chunks hne hpos
    refine ⟨by simp [measure_download], ?_, by linarith⟩
    match chunks, hne with
    | c :: rest, _ =>
      have := hpos c (List.mem_cons_self c rest)
      simp only [List.sum_cons]
      omega

/-- Witness for `transfer_sample_invariant` at a concrete successful
download and upload. -/
theorem transfer_sample_invariant_witness :
    measure_download none (.success 200 [3]) 0 2 = (Elapsed.fin (2 - 0), 3) ∧
    measure_upload none 5 (.response 200) 0 2 = (Elapsed.fin (2 - 0), 5) := by
  have h := transfer_sample_invariant none 5 DownloadOutcome.connFailure
    UploadOutcome.failure 0 2 (by norm_num)
  exact ⟨(h.2.2.1 [3] (by simp) (by simp)).1, h.2.2.2.1⟩

/-- **C9.** For each of the three measurement functions, an absent
(`None`) timeout behaves exactly as a timeout of 10 seconds: the result
map is identical and the `ClientTimeout` handed to the network layer is
identical. -/
theorem timeout_defaults_to_ten (dout : DownloadOutcome)
    (uout : UploadOutcome) (louts : List LatencyAttempt) (size : ℕ)
    (t0 t1 : ℚ) :
    (measure_download none dout t0 t1 =
      measure_download (some 10) dout t0 t1) ∧
    (download_timeout_config none = download_timeout_config (some 10)) ∧
    (measure_latency none louts = measure_latency (some 10) louts) ∧
    (latency_timeout_config none = latency_timeout_config (some 10)) ∧
    (measure_upload none size uout t0 t1 =
      measure_upload (some 10) size uout t0 t1) ∧
    (upload_timeout_config none = upload_timeout_config (some 10)) := by
  refine ⟨rfl, ?_, rfl, ?_, rfl, ?_⟩ <;>
    norm_num [download_timeout_config, latency_timeout_config,
      upload_timeout_config, normalizeTimeout]

/-! ## Bootstrap: probe catalog fetch (client.py lines 24-57) -/

/-- Modelled from the spec: one probe entry of the catalog
(`yaspeedtest/types.py` is not in the inspected source; spec §6 gives
the shape `{url, size?, timeout?}`). -/
structure ProbeModel where
  url : String
  size : Option ℕ
  timeout : Option ℚ
deriving DecidableEq, Repr

/-- Modelled from the spec: a per-category probe group
(`{"probes": [...]}`). -/
structure ProbeGroup where
  probes : List ProbeModel
deriving DecidableEq, Repr

/-- Modelled from the spec: the parsed probe catalog
(`yaspeedtest/types.py` is not in the inspected source; spec §6 gives
`{mid, lid, download, upload, latency}`). -/
structure ProbesResponse where
  mid : String
  lid : String
  download : ProbeGroup
  upload : ProbeGroup
  latency : ProbeGroup
deriving DecidableEq, Repr

/-- Modelled from the spec: the fatal catalog error kind raised by
`__start_proccess` (`YandexAPIError` lives in the absent
`yaspeedtest/types.py`; only its message payload matters here). -/
structure YandexAPIError where
  message : String
deriving DecidableEq, Repr

/-- The catalog state stored by a successful bootstrap:
`self.probes`, `self.mid`, `self.lid` (client.py lines 55-57). -/
structure CatalogState where
  probes : ProbesResponse
  mid : String
  lid : String
deriving DecidableEq, Repr

/-- `requests.Response.ok` (external `requests` library): true unless
`raise_for_status` would raise, i.e. unless the status code is in
`[400, 600)`. -/
def requests_ok (status : ℕ) : Bool :=
  decide (status < 400 ∨ 600 ≤ status)

/-- `__start_proccess` (client.py lines 32-57) given the bootstrap GET's
HTTP status, its body text and its parsed JSON catalog: `if not r.ok`
raise `YandexAPIError(f"Proccess not started: {r.text}")`, else store
the parsed catalog and its `mid`/`lid`. (The header-echo side effect on
the session, line 52-53, carries no catalog state and is not modelled.) -/
def start_proccess (status : ℕ) (text : String) (body : ProbesResponse) :
    Except YandexAPIError CatalogState :=
  if !(requests_ok status) then
    Except.error ⟨"Proccess not started: " ++ text⟩
  else
    Except.ok ⟨body, body.mid, body.lid⟩

/-- **C8.** A bootstrap fetch with a non-success status (any status in
`[400, 600)`, e.g. 500 — exactly the statuses `requests` marks not-ok)
makes initialization surface the fatal `YandexAPIError` to its caller,
and no catalog state is stored: the result is never an `ok` state. -/
theorem bootstrap_error_on_failure_status (status : ℕ) (text : String)
    (body : ProbesResponse) (h : 400 ≤ status ∧ status < 600) :
    (start_proccess status text body =
      Except.error ⟨"Proccess not started: " ++ text⟩) ∧
    (∀ st : CatalogState, start_proccess status text body ≠ Except.ok st) := by
  have hok : requests_ok status = false := by
    simp only [requests_ok, decide_eq_false_iff_not]
    omega
  constructor
  · simp [start_proccess, hok]
  · intro st hst
    simp [start_proccess, hok] at hst

/-- Witness for `bootstrap_error_on_failure_status` at HTTP 500. -/
theorem bootstrap_error_on_failure_status_witness :
    start_proccess 500 "oops" ⟨"m", "l", ⟨[]⟩, ⟨[]⟩, ⟨[]⟩⟩ =
      Except.error ⟨"Proccess not started: oops"⟩ :=
  (bootstrap_error_on_failure_status 500 "oops" ⟨"m", "l", ⟨[]⟩, ⟨[]⟩, ⟨[]⟩⟩
    (by norm_num)).1

/-! ## Aggregator (spec §4.4; the orchestrating `run` method and the
Aggregator are not present in the inspected source) -/

/-- A raw transfer sample is the failure sentinel `(float('inf'), 0)`. -/
def isSentinel (s : Elapsed × ℕ) : Bool :=
  decide (s = (Elapsed.inf, 0))

/-- Running total of bytes across a category's samples. -/
def sumBytes (samples : List (Elapsed × ℕ)) : ℕ :=
  samples.foldl (fun acc s => acc + s.2) 0

/-- Effective elapsed time of a round's category: the maximum elapsed
across its concurrent samples. -/
def maxElapsed (samples : List (Elapsed × ℕ)) : Elapsed :=
  samples.foldl (fun acc s => acc.maxE s.1) (Elapsed.fin 0)

/-- Modelled from the spec: the Aggregator's per-round, per-category
throughput reduction (spec §4.4) — `sum(bytes) * 8 / 1_000_000` divided
by the maximum elapsed seconds across the category's concurrent samples,
with `0` when every sample is the failure sentinel. The result lives in
`ℚ`, which has no `+infinity` or `NaN`. -/
def categoryThroughput (samples : List (Elapsed × ℕ)) : ℚ :=
  if samples.all isSentinel then 0
  else Elapsed.divBy ((sumBytes samples : ℚ) * 8 / 1000000)
    (maxElapsed samples)

lemma maxE_comm (a b : Elapsed) : a.maxE b = b.maxE a := by
  cases a <;> cases b <;> simp [Elapsed.maxE, max_comm]

lemma maxE_left_comm (a b c : Elapsed) :
    a.maxE (b.maxE c) = b.maxE (a.maxE c) := by
  cases a <;> cases b <;> cases c <;> simp [Elapsed.maxE, max_left_comm]

lemma foldr_maxE_base (rest : List (Elapsed × ℕ)) (b x : Elapsed) :
    rest.foldr (fun s m => s.1.maxE m) (b.maxE x) =
      x.maxE (rest.foldr (fun s m => s.1.maxE m) b) := by
  induction rest with
  | nil => exact maxE_comm b x
  | cons s r ih => simp only [List.foldr_cons, ih, maxE_left_comm]

lemma foldl_maxE_eq_foldr (l : List (Elapsed × ℕ)) (b : Elapsed) :
    l.foldl (fun acc s => acc.maxE s.1) b =
      l.foldr (fun s m => s.1.maxE m) b := by
  induction l generalizing b with
  | nil => rfl
  | cons s rest ih =>
    simp only [List.foldl_cons, List.foldr_cons, ih, foldr_maxE_base]

lemma foldl_add_snd (l : List (Elapsed × ℕ)) (n : ℕ) :
    l.foldl (fun acc s => acc + s.2) n = n + (l.map Prod.snd).sum := by
  induction l generalizing n with
  | nil => simp
  | cons s rest ih =>
    simp only [List.foldl_cons, List.map_cons, List.sum_cons, ih]
    omega

lemma sumBytes_cast (samples : List (Elapsed × ℕ)) :
    ((sumBytes samples : ℕ) : ℚ) =
      (samples.map (fun s => ((s.2 : ℕ) : ℚ))).sum := by
  rw [sumBytes, foldl_add_snd, Nat.zero_add, Nat.cast_list_sum,
    List.map_map]
  rfl

lemma all_isSentinel_iff (samples : List (Elapsed × ℕ)) :
    samples.all isSentinel = true ↔
      ∀ s ∈ samples, s = (Elapsed.inf, 0) := by
  rw [List.all_eq_true]
  constructor
  · intro h s hs
    exact of_decide_eq_true (h s hs)
  · intro h s hs
    exact decide_eq_true (h s hs)

/-- **C7.** The per-round category throughput is
`sum(bytes) * 8 / 1_000_000` divided by the maximum elapsed seconds
across the category's concurrent samples; when every sample is the
failure sentinel the throughput is the rational `0` (no `+infinity` or
`NaN` exists in the result type). -/
theorem category_throughput_formula (samples : List (Elapsed × ℕ)) :
    (categoryThroughput samples =
      if ∀ s ∈ samples, s = (Elapsed.inf, 0) then 0
      else Elapsed.divBy
        ((samples.map (fun s => ((s.2 : ℕ) : ℚ))).sum * 8 / 1000000)
        (samples.foldr (fun s m => s.1.maxE m) (Elapsed.fin 0))) ∧
    ((∀ s ∈ samples, s = (Elapsed.inf, 0)) →
      categoryThroughput samples = 0) := by
  have hall := all_isSentinel_iff samples
  constructor
  · rw [categoryThroughput]
    by_cases h : ∀ s ∈ samples, s = (Elapsed.inf, 0)
    · rw [if_pos (hall.mpr h), if_pos h]
    · rw [if_neg (fun hc => h (hall.mp hc)), if_neg h, sumBytes_cast,
        maxElapsed, foldl_maxE_eq_foldr]
  · intro h
    rw [categoryThroughput, if_pos (hall.mpr h)]

/-- Witness for `category_throughput_formula`: a round whose only
sample is the failure sentinel gets throughput `0`. -/
theorem category_throughput_formula_witness :
    categoryThroughput [(Elapsed.inf, 0)] = 0 :=
  (category_throughput_formula [(Elapsed.inf, 0)]).2 (by decide)
